import Mathlib

/-!
Shallow embedding of the AyuSahayak frontend components under verification:
the `AIImageAnalysis` two-stage analysis wizard, the `WoundCareAI` page and the
`AISummary` page.  Component state is an explicit record, each React event
handler becomes a function from the render-time state snapshot (the values the
handler's closure captured) and the network responses it consumes to the
committed state, the alerts it raised and the network events it produced.
-/

/-- Outcome of one awaited network call: a parsed successful response, or a
thrown error (network failure or non-2xx status raised by axios/fetch). -/
inductive Net (α : Type) where
  | ok (val : α)
  | err
deriving DecidableEq

/-- Parsed JSON body of a successful stage-1 response (`res.data` in
`handleAnalyze`): classification outputs plus optional follow-up questions.
`questions = none` models a missing, null or undefined `questions` field. -/
structure Stage1Data where
  top3_classes : List String
  top3_probs : List Rat
  rag_summary : String
  questions : Option (List String)
deriving DecidableEq

/-- Parsed JSON body of a successful stage-2 response; `final_report = none`
models a missing or null `final_report` field. -/
structure Stage2Response where
  final_report : Option String
deriving DecidableEq

/-- The JSON payload POSTed to `/api/{conditionType}_stage2` in
`handleSubmitAnswers`; exactly the seven fields built at its `payload` literal. -/
structure Stage2Payload where
  top3_classes : List String
  top3_probs : List Rat
  rag_summary : String
  questions : Option (List String)
  answers : List String
  patient_ref : String
  image_url : String
deriving DecidableEq

/-- One entry of the `topPredictions` array of the saved AI result. -/
structure Prediction where
  name : String
  confidence : Rat
deriving DecidableEq

/-- The `aiResult` object persisted by the third call of `handleSubmitAnswers`. -/
structure AiResult where
  topPredictions : List Prediction
  aiFinalReport : Option String
  ragSummary : String
  patientAnswers : List String
deriving DecidableEq

/-- Body of the save call: `{ patient_ref: patientRef, [dataKey]: aiResult }`;
the computed JS key is recorded in `dataKey`. -/
structure SavePayload where
  patient_ref : String
  dataKey : String
  result : AiResult
deriving DecidableEq

/-- An HTTP request issued by the component, with its target and JSON body. -/
inductive Request where
  | fetchImage (url : String)
  | postStage1 (url : String)
  | postStage2 (url : String) (body : Stage2Payload)
  | postSave (url : String) (body : SavePayload)
deriving DecidableEq

/-- A point of the network trace: a request leaving, or its response (success
or failure) arriving. -/
inductive NetEvent where
  | issue (r : Request)
  | finish (r : Request)
deriving DecidableEq

/-- The trace of one awaited call: the request is issued and, because the
caller suspends on `await`, it finishes before anything else is issued. -/
def callEvents (r : Request) : List NetEvent := [.issue r, .finish r]

/-- Props of the `AIImageAnalysis` component. -/
structure Props where
  conditionType : String
  imageUrl : String
  patientRef : String
deriving DecidableEq

/-- The six `useState` hooks of `AIImageAnalysis`. -/
structure AIState where
  stage : String
  loading : Bool
  stage1Result : Option Stage1Data
  answers : List String
  currentQ : Nat
  finalReport : Option String
deriving DecidableEq

/-- Initial state of `AIImageAnalysis`:
`useState("idle")`, `useState(false)`, `useState(null)`, `useState([])`,
`useState(0)`, `useState(null)`. -/
def initState : AIState :=
  { stage := "idle", loading := false, stage1Result := none,
    answers := [], currentQ := 0, finalReport := none }

/-- Network responses consumed by one run of `handleSubmitAnswers`. -/
structure SubmitEnv where
  stage2 : Net Stage2Response
  save : Net Unit
deriving DecidableEq

/-- Network responses consumed by one run of `handleAnalyze`; `submit` feeds
the nested `handleSubmitAnswers` call of the zero-question path. -/
structure AnalyzeEnv where
  fetchImage : Net Unit
  stage1 : Net Stage1Data
  submit : SubmitEnv
deriving DecidableEq

/-- Result of running one event handler: the committed component state, the
blocking alerts raised (in order), the network events (in order) and the
successive arguments of the `setStage` calls made during the run. -/
structure HandlerOut where
  state : AIState
  alerts : List String
  events : List NetEvent
  stages : List String
deriving DecidableEq

/-- JS truthiness of `res.data.final_report || "No detailed AI report
available."`: a missing, null or empty-string report falls back to the fixed
message. -/
def reportOrDefault : Option String → String
  | none => "No detailed AI report available."
  | some s => if s = "" then "No detailed AI report available." else s

/-- Two-decimal rounding standing in for JS `Number.toFixed(2)`.  The claims
only use the value, never the exact float-formatted string, so the result is
kept as a rational. -/
def toFixed2 (x : Rat) : Rat := (round (x * 100) : Int) / 100

/-- The `topPredictions` array built in `handleSubmitAnswers`:
`top3_classes.map((cls, i) => ({ name: cls, confidence:
(top3_probs[i] * 100).toFixed(2) }))`.  An out-of-range probability index (a
JS `NaN` confidence) is modelled as probability 0; no claim exercises it. -/
def topPredictionsOf (r : Stage1Data) : List Prediction :=
  r.top3_classes.mapIdx fun i cls =>
    { name := cls, confidence := toFixed2 (r.top3_probs.getD i 0 * 100) }

/-- The `aiResult` object of the save call: note it stores the raw
`res.data.final_report`, not the defaulted message shown on screen. -/
def aiResultOf (r : Stage1Data) (finalReport : Option String)
    (answers : List String) : AiResult :=
  { topPredictions := topPredictionsOf r, aiFinalReport := finalReport,
    ragSummary := r.rag_summary, patientAnswers := answers }

/-- Target of the stage-1 POST. -/
def stage1Url (ct : String) : String := "http://localhost:5001/api/" ++ ct ++ "_stage1"

/-- Target of the stage-2 POST. -/
def stage2Url (ct : String) : String := "http://localhost:5001/api/" ++ ct ++ "_stage2"

/-- The save route picked by `conditionType === "wound" ? ... : ...`. -/
def saveUrl (ct : String) : String :=
  if ct = "wound" then "/patients/ai/save-woundcare" else "/patients/ai/save-skincare"

/-- The computed property key of the save body. -/
def dataKey (ct : String) : String :=
  if ct = "wound" then "wound_result" else "skin_result"

/-- Shallow embedding of `handleSubmitAnswers`.  The function takes no JS
parameters: `stage1Result` and `answers` here are the values its closure
captured at render time (queued React state setters never change them inside
one run), while `s` is the state the queued setter calls apply to.  When
`stage1Result` is null, building the payload dereferences it and throws; the
`catch` then alerts and resets the stage, and the `finally` clears `loading`. -/
def handleSubmitAnswers (p : Props) (stage1Result : Option Stage1Data)
    (answers : List String) (s : AIState) (env : SubmitEnv) : HandlerOut :=
  let s := { s with loading := true, stage := "generating" }
  match stage1Result with
  | none =>
      { state := { s with stage := "idle", loading := false },
        alerts := ["Error generating or saving report."],
        events := [],
        stages := ["generating", "idle"] }
  | some r =>
      let req : Request := .postStage2 (stage2Url p.conditionType)
        { top3_classes := r.top3_classes, top3_probs := r.top3_probs,
          rag_summary := r.rag_summary, questions := r.questions,
          answers := answers, patient_ref := p.patientRef,
          image_url := p.imageUrl }
      match env.stage2 with
      | .err =>
          { state := { s with stage := "idle", loading := false },
            alerts := ["Error generating or saving report."],
            events := callEvents req,
            stages := ["generating", "idle"] }
      | .ok resp =>
          let s := { s with finalReport := some (reportOrDefault resp.final_report),
                            stage := "report" }
          let saveReq : Request := .postSave (saveUrl p.conditionType)
            { patient_ref := p.patientRef, dataKey := dataKey p.conditionType,
              result := aiResultOf r resp.final_report answers }
          match env.save with
          | .err =>
              { state := { s with stage := "idle", loading := false },
                alerts := ["Error generating or saving report."],
                events := callEvents req ++ callEvents saveReq,
                stages := ["generating", "report", "idle"] }
          | .ok _ =>
              { state := { s with loading := false },
                alerts := [],
                events := callEvents req ++ callEvents saveReq,
                stages := ["generating", "report"] }

/-- Shallow embedding of `handleAnalyze`.  Returns immediately while a request
is in flight (`loading`).  On a successful stage-1 response with a missing or
empty `questions` array it calls `handleSubmitAnswers([], res.data)`; both
arguments are discarded by that nullary function, which instead reads the
render-time closure values `s.stage1Result` and `s.answers`.  The state the
nested run's setters apply to already contains the freshly stored stage-1
result. -/
def handleAnalyze (p : Props) (s : AIState) (env : AnalyzeEnv) : HandlerOut :=
  if s.loading then { state := s, alerts := [], events := [], stages := [] }
  else
    let s1 := { s with loading := true, stage := "analyzing" }
    let fetchReq : Request := .fetchImage p.imageUrl
    match env.fetchImage with
    | .err =>
        { state := { s1 with stage := "idle", loading := false },
          alerts := ["Error analyzing image. Check AI backend logs."],
          events := callEvents fetchReq,
          stages := ["analyzing", "idle"] }
    | .ok _ =>
        let s1Req : Request := .postStage1 (stage1Url p.conditionType)
        match env.stage1 with
        | .err =>
            { state := { s1 with stage := "idle", loading := false },
              alerts := ["Error analyzing image. Check AI backend logs."],
              events := callEvents fetchReq ++ callEvents s1Req,
              stages := ["analyzing", "idle"] }
        | .ok d =>
            let s2 := { s1 with stage1Result := some d }
            if d.questions.getD [] = [] then
              let out := handleSubmitAnswers p s.stage1Result s.answers s2 env.submit
              { state := { out.state with loading := false },
                alerts := out.alerts,
                events := callEvents fetchReq ++ callEvents s1Req ++ out.events,
                stages := "analyzing" :: out.stages }
            else
              { state := { s2 with
                  answers := List.replicate (d.questions.getD []).length "",
                  stage := "questions", loading := false },
                alerts := [],
                events := callEvents fetchReq ++ callEvents s1Req,
                stages := ["analyzing", "questions"] }

/-- Shallow embedding of `handleAnswerChange`: copies `answers` and overwrites
index `currentQ` with the input value.  (When `currentQ ≥ answers.length` JS
would grow the array with holes; that situation is outside every claim and is
modelled as a no-op.) -/
def handleAnswerChange (s : AIState) (v : String) : AIState :=
  { s with answers := s.answers.set s.currentQ v }

/-- Shallow embedding of `nextQuestion`.  An empty (JS-falsy) current answer
raises the validation alert and changes nothing.  A null `stage1Result` would
throw an uncaught exception out of the handler, changing nothing; that branch
is unreachable from the rendered UI, which shows the button only when
`stage === "questions" && stage1Result`. -/
def nextQuestion (p : Props) (s : AIState) (env : SubmitEnv) : HandlerOut :=
  if s.answers.getD s.currentQ "" = "" then
    { state := s, alerts := ["Please answer this question."], events := [], stages := [] }
  else
    match s.stage1Result with
    | none => { state := s, alerts := [], events := [], stages := [] }
    | some r =>
        if s.currentQ < (r.questions.getD []).length - 1 then
          { state := { s with currentQ := s.currentQ + 1 },
            alerts := [], events := [], stages := [] }
        else
          handleSubmitAnswers p s.stage1Result s.answers s env

/-- One user-driven step of the `AIImageAnalysis` UI, at the granularity of a
full event-handler run.  The guards record which controls the component
renders: the Analyze button exists only in the `idle` stage and is disabled
while `loading`; the answer input and the Next/Generate button exist only in
the `questions` stage with a non-null `stage1Result`. -/
inductive Step (p : Props) : AIState → AIState → Prop where
  | analyze (s : AIState) (env : AnalyzeEnv) :
      s.stage = "idle" → s.loading = false →
      Step p s (handleAnalyze p s env).state
  | typeAnswer (s : AIState) (v : String) :
      s.stage = "questions" → s.stage1Result.isSome = true →
      Step p s (handleAnswerChange s v)
  | next (s : AIState) (env : SubmitEnv) :
      s.stage = "questions" → s.stage1Result.isSome = true →
      Step p s (nextQuestion p s env).state

/-- States of `AIImageAnalysis` reachable from its initial render. -/
inductive Reach (p : Props) : AIState → Prop where
  | init : Reach p initState
  | step {s t : AIState} : Reach p s → Step p s t → Reach p t

/-- Position of a stage value along the wizard's forward order; unknown
strings map past the end. -/
def stageRank (st : String) : Nat :=
  if st = "idle" then 0
  else if st = "analyzing" then 1
  else if st = "questions" then 2
  else if st = "generating" then 3
  else if st = "report" then 4
  else 5

/-- Allowed UI stage transition: strictly forward along the wizard order
(skips permitted), or a reset to `idle`. -/
def okStep (a b : String) : Prop := stageRank a < stageRank b ∨ b = "idle"

instance : DecidableRel okStep := fun a b =>
  inferInstanceAs (Decidable (stageRank a < stageRank b ∨ b = "idle"))

/-- Running in-flight request balance of a network trace. -/
def inflightCount (es : List NetEvent) : Int :=
  es.foldl (fun n e => match e with | .issue _ => n + 1 | .finish _ => n - 1) 0

/-- The save calls of a trace: targets and bodies of the `postSave` requests
issued, in order. -/
def savedPairs (es : List NetEvent) : List (String × SavePayload) :=
  es.filterMap fun e =>
    match e with
    | .issue (.postSave u b) => some (u, b)
    | _ => none

/-- States reachable inside one question round of `AIImageAnalysis` that was
entered at question index 0: the round starts when `handleAnalyze` stores the
stage-1 result `r` and switches to the `questions` stage with a fresh blank
answer array, and continues through typing and non-final Next clicks (a click
that leaves the `questions` stage ends the round). -/
inductive QRound (p : Props) (r : Stage1Data) : AIState → Prop where
  | start (s : AIState) :
      s.stage = "questions" → s.stage1Result = some r → s.currentQ = 0 →
      s.answers = List.replicate (r.questions.getD []).length "" →
      QRound p r s
  | typeAnswer {s : AIState} (v : String) :
      QRound p r s → QRound p r (handleAnswerChange s v)
  | next {s : AIState} (env : SubmitEnv) :
      QRound p r s → (nextQuestion p s env).state.stage = "questions" →
      QRound p r (nextQuestion p s env).state

/-- The patient object handed to `AISummary` through the router location
state; `J` is the (opaque) type of the JSON value stored under `aiSummary`. -/
structure PatientInfo (J : Type) where
  conditionType : String
  aiSummary : Option J
deriving DecidableEq

/-- Parsed body of a successful `GET /cases/{ref}` response; `cases = none`
models a missing or null `cases` field. -/
structure CasesResponse (J : Type) where
  cases : Option (List J)
deriving DecidableEq

/-- Committed state of `AISummary` after its `useEffect` has settled, plus the
request URLs it issued. -/
structure SummaryState (J : Type) where
  aiData : Option J
  error : String
  loading : Bool
  requests : List String
deriving DecidableEq

/-- Shallow embedding of the `AISummary` loading effect (the `useEffect` body
with `loadAI` inside): no patient means an error message; a `wound` or `skin`
condition type reads the passed patient's `aiSummary` without any request;
otherwise the case history is fetched and the last case (or null) becomes the
AI data.  `ref = none` models a missing `ref` query parameter, which JS
interpolates as the string `null`. -/
def loadAI {J : Type} (passedPatient : Option (PatientInfo J))
    (ref : Option String) (env : Net (CasesResponse J)) : SummaryState J :=
  match passedPatient with
  | none =>
      { aiData := none, error := "No patient data received.",
        loading := false, requests := [] }
  | some pat =>
      if pat.conditionType = "wound" ∨ pat.conditionType = "skin" then
        { aiData := pat.aiSummary, error := "", loading := false, requests := [] }
      else
        let url := "/cases/" ++ (match ref with | some r => r | none => "null")
        match env with
        | .err =>
            { aiData := none, error := "Failed to load AI Summary.",
              loading := false, requests := [url] }
        | .ok resp =>
            { aiData := (resp.cases.getD []).getLast?, error := "",
              loading := false, requests := [url] }

/-- What the `AISummary` page shows after loading. -/
inductive SummaryView (J : Type) where
  | loadingView
  | errorView (msg : String)
  | noSummary
  | summary (d : J)
deriving DecidableEq

/-- Render logic of `AISummary`: the loading screen, then the error screen
(any non-empty `error` is truthy), then the summary card, which shows the
text `No AI summary available.` exactly when `aiData` is null/undefined. -/
def renderSummary {J : Type} (st : SummaryState J) : SummaryView J :=
  if st.loading then .loadingView
  else if st.error = "" then
    match st.aiData with
    | none => .noSummary
    | some d => .summary d
  else .errorView st.error

/-- One element of the `photos` array of a patient record. -/
structure Photo where
  url : String
deriving DecidableEq

/-- Parsed body of a successful `GET /patients/{ref}` response; `photos = none`
models a missing or null `photos` field (the code applies `|| []`). -/
structure PatientResponse where
  photos : Option (List Photo)
deriving DecidableEq

/-- Outcome of the patient fetch in `WoundCareAI`: a response, or an error
carrying the HTTP status of `err.response` when one exists. -/
inductive HttpResult (α : Type) where
  | ok (val : α)
  | err (status : Option Nat)
deriving DecidableEq

/-- Committed state of the `WoundCareAI` page after its mount effect, plus the
alerts raised, the request URLs issued and any forced navigation. -/
structure WoundPageState where
  imageUrl : Option String
  loading : Bool
  alerts : List String
  requests : List String
  redirect : Option String
deriving DecidableEq

/-- Shallow embedding of the `WoundCareAI` mount effect: `ref` is the `ref`
query parameter defaulted to the empty string; an empty `ref` skips the fetch
entirely (leaving `loading` true), otherwise `GET /patients/{ref}` either
yields the first photo's url, or the no-image alert, or the error handling
(401 redirects to the login page). -/
def woundCareEffect (refParam : Option String)
    (env : HttpResult PatientResponse) : WoundPageState :=
  let ref := match refParam with | none => "" | some s => s
  if ref = "" then
    { imageUrl := none, loading := true, alerts := [], requests := [], redirect := none }
  else
    let url := "/patients/" ++ ref
    match env with
    | .ok resp =>
        match resp.photos.getD [] with
        | [] =>
            { imageUrl := none, loading := false,
              alerts := ["No image found for this patient."],
              requests := [url], redirect := none }
        | ph :: _ =>
            { imageUrl := some ph.url, loading := false, alerts := [],
              requests := [url], redirect := none }
    | .err status =>
        if status = some 401 then
          { imageUrl := none, loading := false,
            alerts := ["Session expired. Please log in again."],
            requests := [url], redirect := some "/login" }
        else
          { imageUrl := none, loading := false,
            alerts := ["Failed to fetch patient data."],
            requests := [url], redirect := none }

/-- What the `WoundCareAI` card shows: the image plus the `AIImageAnalysis`
component when `imageUrl` is set, otherwise the loading note or the no-image
message. -/
inductive WoundView where
  | analysis (img : String)
  | loadingOnly
  | noImage
deriving DecidableEq

/-- Render logic of the `WoundCareAI` card body. -/
def renderWoundCare (st : WoundPageState) : WoundView :=
  match st.imageUrl with
  | some img => .analysis img
  | none => if st.loading then .loadingOnly else .noImage

/-- The JS regex whitespace class used by both the `\s` of the bullet regex
and `String.prototype.trim`. -/
def isJsWs (c : Char) : Bool :=
  c == ' ' || c == '\t' || c == '\n' || c == '\r' ||
  c == '\x0b' || c == '\x0c' || c.toNat == 0xa0 ||
  c.toNat == 0x1680 || (0x2000 ≤ c.toNat && c.toNat ≤ 0x200a) ||
  c.toNat == 0x2028 || c.toNat == 0x2029 || c.toNat == 0x202f ||
  c.toNat == 0x205f || c.toNat == 0x3000 || c.toNat == 0xfeff

/-- JS `String.prototype.trim`: strips the whitespace class from both ends. -/
def jsTrim (s : String) : String :=
  ⟨((s.data.dropWhile isJsWs).reverse.dropWhile isJsWs).reverse⟩

/-- One replacement of `/^\*?\s*/g`: the anchor can only match at the start,
so at most one leading asterisk and the whitespace after it are removed. -/
def stripLeadingStar (s : String) : String :=
  ⟨(match s.data with | '*' :: rest => rest | cs => cs).dropWhile isJsWs⟩

/-- Shallow embedding of `toBulletList` in `AISummary`; `none` models a null
or undefined argument (both JS-falsy, like the empty string). -/
def toBulletList (text : Option String) : List String :=
  match text with
  | none => []
  | some t =>
      if t = "" then []
      else ((t.split (· == '\n')).map stripLeadingStar).filter
        fun line => (jsTrim line).length > 0

/-- The behaviour `toBulletList` is claimed to have, written from the claim's
words: split the text at newline characters, remove from each line at most
one leading asterisk together with the whitespace immediately following it,
and drop the lines that are empty or consist only of whitespace; a null,
undefined or empty input gives the empty list. -/
def bulletListSpec (text : Option String) : List String :=
  match text with
  | none => []
  | some t =>
      if t = "" then []
      else ((t.split (· == '\n')).map (fun line =>
          ⟨(match line.data with | '*' :: rest => rest | cs => cs).dropWhile isJsWs⟩)).filter
        fun line => !line.data.all isJsWs

/-- Concrete props used by the concrete evaluations below. -/
def pW : Props :=
  { conditionType := "wound", imageUrl := "http://img/1.jpg", patientRef := "P1" }

/-- A concrete stage-1 result whose `questions` array is empty. -/
def d0 : Stage1Data :=
  { top3_classes := ["Abrasion"], top3_probs := [(9 : Rat)/10],
    rag_summary := "rag", questions := some [] }

/-- A concrete stage-1 result with three follow-up questions. -/
def dQ3 : Stage1Data :=
  { top3_classes := ["Burn"], top3_probs := [(1 : Rat)/2],
    rag_summary := "rag1", questions := some ["q0", "q1", "q2"] }

/-- A concrete stage-1 result with five follow-up questions. -/
def dQ5 : Stage1Data :=
  { top3_classes := ["Cut"], top3_probs := [(3 : Rat)/4],
    rag_summary := "rag2", questions := some ["p0", "p1", "p2", "p3", "p4"] }

/-- A submit environment in which both calls succeed. -/
def subOK : SubmitEnv := { stage2 := .ok { final_report := some "REPORT" }, save := .ok () }

/-- A submit environment whose stage-2 call fails. -/
def subErr : SubmitEnv := { stage2 := .err, save := .err }

/-- Analyze environment delivering the three-question stage-1 result. -/
def envQ3 : AnalyzeEnv := { fetchImage := .ok (), stage1 := .ok dQ3, submit := subOK }

/-- Analyze environment delivering the five-question stage-1 result. -/
def envQ5 : AnalyzeEnv := { fetchImage := .ok (), stage1 := .ok dQ5, submit := subOK }

/-- Trace of a concrete interaction: first round of three questions, answered
and submitted with a failing stage-2 call (back to `idle`), then a second
round of five questions entered with the stale `currentQ = 2`. -/
def c9s1 : AIState := (handleAnalyze pW initState envQ3).state

/-- Second state of the trace: answer `x` typed at question 0. -/
def c9s2 : AIState := handleAnswerChange c9s1 "x"

/-- Third state of the trace: Next clicked, advancing to question 1. -/
def c9s3 : AIState := (nextQuestion pW c9s2 subOK).state

/-- Fourth state: answer `y` typed at question 1. -/
def c9s4 : AIState := handleAnswerChange c9s3 "y"

/-- Fifth state: Next clicked, advancing to question 2. -/
def c9s5 : AIState := (nextQuestion pW c9s4 subOK).state

/-- Sixth state: answer `z` typed at question 2, the last one. -/
def c9s6 : AIState := handleAnswerChange c9s5 "z"

/-- Seventh state: Generate clicked; the stage-2 call fails, so the component
returns to `idle` with `currentQ` still 2. -/
def c9s7 : AIState := (nextQuestion pW c9s6 subErr).state

/-- Eighth state: Analyze clicked again; the new stage-1 result has five
questions, the answers are re-blanked, but `currentQ` stays 2. -/
def c9s8 : AIState := (handleAnalyze pW c9s7 envQ5).state

/-- Ninth state: answer `w` typed at question index 2. -/
def c9s9 : AIState := handleAnswerChange c9s8 "w"

/-- Tenth state: Next clicked, advancing to index 3. -/
def c9s10 : AIState := (nextQuestion pW c9s9 subOK).state

/-- Eleventh state: answer `u` typed at index 3. -/
def c9s11 : AIState := handleAnswerChange c9s10 "u"

/-- Twelfth state: Next clicked, advancing to index 4. -/
def c9s12 : AIState := (nextQuestion pW c9s11 subOK).state

/-- Thirteenth state: answer `v` typed at index 4, the last question; the next
click submits with the entries at indices 0 and 1 still empty. -/
def c9s13 : AIState := handleAnswerChange c9s12 "v"

/-- Reduction of `handleSubmitAnswers` with a null captured `stage1Result`:
the payload construction throws before any request is issued. -/
theorem hsa_none_eq (p : Props) (a : List String) (s : AIState) (env : SubmitEnv) :
    handleSubmitAnswers p none a s env =
      { state := { s with stage := "idle", loading := false },
        alerts := ["Error generating or saving report."],
        events := [],
        stages := ["generating", "idle"] } := rfl

/-- Reduction of `handleSubmitAnswers` when the stage-2 call fails. -/
theorem hsa_err_eq (p : Props) (r : Stage1Data) (a : List String) (s : AIState)
    (sv : Net Unit) :
    handleSubmitAnswers p (some r) a s { stage2 := .err, save := sv } =
      { state := { s with stage := "idle", loading := false },
        alerts := ["Error generating or saving report."],
        events := callEvents (.postStage2 (stage2Url p.conditionType)
          { top3_classes := r.top3_classes, top3_probs := r.top3_probs,
            rag_summary := r.rag_summary, questions := r.questions,
            answers := a, patient_ref := p.patientRef, image_url := p.imageUrl }),
        stages := ["generating", "idle"] } := rfl

/-- Reduction of `handleSubmitAnswers` when stage 2 succeeds but the save call
fails: the final report is already committed, then the catch resets to idle. -/
theorem hsa_saveerr_eq (p : Props) (r : Stage1Data) (a : List String) (s : AIState)
    (resp : Stage2Response) :
    handleSubmitAnswers p (some r) a s { stage2 := .ok resp, save := .err } =
      { state := { s with stage := "idle", loading := false,
                          finalReport := some (reportOrDefault resp.final_report) },
        alerts := ["Error generating or saving report."],
        events := callEvents (.postStage2 (stage2Url p.conditionType)
            { top3_classes := r.top3_classes, top3_probs := r.top3_probs,
              rag_summary := r.rag_summary, questions := r.questions,
              answers := a, patient_ref := p.patientRef, image_url := p.imageUrl })
          ++ callEvents (.postSave (saveUrl p.conditionType)
            { patient_ref := p.patientRef, dataKey := dataKey p.conditionType,
              result := aiResultOf r resp.final_report a }),
        stages := ["generating", "report", "idle"] } := rfl

/-- Reduction of `handleSubmitAnswers` when both calls succeed. -/
theorem hsa_ok_eq (p : Props) (r : Stage1Data) (a : List String) (s : AIState)
    (resp : Stage2Response) :
    handleSubmitAnswers p (some r) a s { stage2 := .ok resp, save := .ok () } =
      { state := { s with stage := "report", loading := false,
                          finalReport := some (reportOrDefault resp.final_report) },
        alerts := [],
        events := callEvents (.postStage2 (stage2Url p.conditionType)
            { top3_classes := r.top3_classes, top3_probs := r.top3_probs,
              rag_summary := r.rag_summary, questions := r.questions,
              answers := a, patient_ref := p.patientRef, image_url := p.imageUrl })
          ++ callEvents (.postSave (saveUrl p.conditionType)
            { patient_ref := p.patientRef, dataKey := dataKey p.conditionType,
              result := aiResultOf r resp.final_report a }),
        stages := ["generating", "report"] } := rfl

/-- `handleAnalyze` is a no-op while a request is in flight. -/
theorem ha_loading_eq (p : Props) (s : AIState) (env : AnalyzeEnv)
    (h : s.loading = true) :
    handleAnalyze p s env = { state := s, alerts := [], events := [], stages := [] } := by
  simp [handleAnalyze, h]

/-- Reduction of `handleAnalyze` when the image fetch fails. -/
theorem ha_fetcherr_eq (p : Props) (s : AIState) (h : s.loading = false)
    (st1 : Net Stage1Data) (sub : SubmitEnv) :
    handleAnalyze p s { fetchImage := .err, stage1 := st1, submit := sub } =
      { state := { s with stage := "idle", loading := false },
        alerts := ["Error analyzing image. Check AI backend logs."],
        events := callEvents (.fetchImage p.imageUrl),
        stages := ["analyzing", "idle"] } := by
  simp [handleAnalyze, h]

/-- Reduction of `handleAnalyze` when the stage-1 call fails. -/
theorem ha_stage1err_eq (p : Props) (s : AIState) (h : s.loading = false)
    (u : Unit) (sub : SubmitEnv) :
    handleAnalyze p s { fetchImage := .ok u, stage1 := .err, submit := sub } =
      { state := { s with stage := "idle", loading := false },
        alerts := ["Error analyzing image. Check AI backend logs."],
        events := callEvents (.fetchImage p.imageUrl)
          ++ callEvents (.postStage1 (stage1Url p.conditionType)),
        stages := ["analyzing", "idle"] } := by
  simp [handleAnalyze, h]

/-- Reduction of `handleAnalyze` on a successful stage-1 response with a
missing or empty question list: the nested nullary `handleSubmitAnswers` runs
on the render-time snapshot values. -/
theorem ha_zeroq_eq (p : Props) (s : AIState) (h : s.loading = false)
    (d : Stage1Data) (hq : d.questions.getD [] = []) (u : Unit) (sub : SubmitEnv) :
    handleAnalyze p s { fetchImage := .ok u, stage1 := .ok d, submit := sub } =
      { state := { (handleSubmitAnswers p s.stage1Result s.answers
            { s with loading := true, stage := "analyzing", stage1Result := some d }
            sub).state with loading := false },
        alerts := (handleSubmitAnswers p s.stage1Result s.answers
            { s with loading := true, stage := "analyzing", stage1Result := some d }
            sub).alerts,
        events := callEvents (.fetchImage p.imageUrl)
          ++ callEvents (.postStage1 (stage1Url p.conditionType))
          ++ (handleSubmitAnswers p s.stage1Result s.answers
              { s with loading := true, stage := "analyzing", stage1Result := some d }
              sub).events,
        stages := "analyzing" :: (handleSubmitAnswers p s.stage1Result s.answers
            { s with loading := true, stage := "analyzing", stage1Result := some d }
            sub).stages } := by
  simp [handleAnalyze, h, hq]

/-- Reduction of `handleAnalyze` on a successful stage-1 response with a
non-empty question list. -/
theorem ha_questions_eq (p : Props) (s : AIState) (h : s.loading = false)
    (d : Stage1Data) (q0 : String) (qrest : List String)
    (hq : d.questions = some (q0 :: qrest)) (u : Unit) (sub : SubmitEnv) :
    handleAnalyze p s { fetchImage := .ok u, stage1 := .ok d, submit := sub } =
      { state := { s with stage := "questions", loading := false,
                          stage1Result := some d,
                          answers := List.replicate (q0 :: qrest).length "" },
        alerts := [],
        events := callEvents (.fetchImage p.imageUrl)
          ++ callEvents (.postStage1 (stage1Url p.conditionType)),
        stages := ["analyzing", "questions"] } := by
  simp [handleAnalyze, h, hq]

/-- Reduction of `nextQuestion` on an empty (falsy) current answer. -/
theorem nq_empty_eq (p : Props) (s : AIState) (env : SubmitEnv)
    (h : s.answers.getD s.currentQ "" = "") :
    nextQuestion p s env =
      { state := s, alerts := ["Please answer this question."],
        events := [], stages := [] } := by
  simp only [List.getD_eq_getElem?_getD] at h
  simp [nextQuestion, h]

/-- Reduction of `nextQuestion` at a non-final answered question. -/
theorem nq_advance_eq (p : Props) (s : AIState) (env : SubmitEnv) (r : Stage1Data)
    (h : s.answers.getD s.currentQ "" ≠ "") (hr : s.stage1Result = some r)
    (hlt : s.currentQ < (r.questions.getD []).length - 1) :
    nextQuestion p s env =
      { state := { s with currentQ := s.currentQ + 1 },
        alerts := [], events := [], stages := [] } := by
  simp only [List.getD_eq_getElem?_getD] at h
  simp [nextQuestion, h, hr, hlt]

/-- Reduction of `nextQuestion` at the final answered question: the handler
submits with the captured state values. -/
theorem nq_submit_eq (p : Props) (s : AIState) (env : SubmitEnv) (r : Stage1Data)
    (h : s.answers.getD s.currentQ "" ≠ "") (hr : s.stage1Result = some r)
    (hge : ¬ s.currentQ < (r.questions.getD []).length - 1) :
    nextQuestion p s env = handleSubmitAnswers p (some r) s.answers s env := by
  simp only [List.getD_eq_getElem?_getD] at h
  simp [nextQuestion, h, hr, hge]

/-- `handleSubmitAnswers` always commits either the `idle` or the `report`
stage. -/
theorem hsa_stage_cases (p : Props) (o : Option Stage1Data) (a : List String)
    (s : AIState) (env : SubmitEnv) :
    (handleSubmitAnswers p o a s env).state.stage = "idle" ∨
    (handleSubmitAnswers p o a s env).state.stage = "report" := by
  obtain ⟨st2, sv⟩ := env
  cases o with
  | none => left; rfl
  | some r =>
      cases st2 with
      | err => left; rfl
      | ok resp =>
          cases sv with
          | err => left; rfl
          | ok u => right; rfl

/-- `handleAnalyze` leaves the stage unchanged (no-op while loading) or
commits one of `idle`, `questions`, `report`. -/
theorem ha_stage_cases (p : Props) (s : AIState) (env : AnalyzeEnv) :
    (handleAnalyze p s env).state.stage = s.stage ∨
    (handleAnalyze p s env).state.stage ∈ (["idle", "questions", "report"] : List String) := by
  by_cases h : s.loading = true
  · left; rw [ha_loading_eq p s env h]
  · rw [Bool.not_eq_true] at h
    obtain ⟨f, st1, sub⟩ := env
    cases f with
    | err => right; rw [ha_fetcherr_eq p s h st1 sub]; simp
    | ok u =>
        cases st1 with
        | err => right; rw [ha_stage1err_eq p s h u sub]; simp
        | ok d =>
            by_cases hq : d.questions.getD [] = []
            · right
              rw [ha_zeroq_eq p s h d hq u sub]
              rcases hsa_stage_cases p s.stage1Result s.answers
                  { s with loading := true, stage := "analyzing", stage1Result := some d }
                  sub with h2 | h2 <;>
                simp only [List.mem_cons, List.mem_singleton] <;> tauto
            · right
              obtain ⟨q0, qrest, hq2⟩ : ∃ q0 qrest, d.questions = some (q0 :: qrest) := by
                cases hqs : d.questions with
                | none => exact absurd (by simp [hqs]) hq
                | some l =>
                    cases l with
                    | nil => exact absurd (by simp [hqs]) hq
                    | cons q0 qrest => exact ⟨q0, qrest, rfl⟩
              rw [ha_questions_eq p s h d q0 qrest hq2 u sub]; simp

/-- `nextQuestion` leaves the stage unchanged or commits `idle` or `report`. -/
theorem nq_stage_cases (p : Props) (s : AIState) (env : SubmitEnv) :
    (nextQuestion p s env).state.stage = s.stage ∨
    (nextQuestion p s env).state.stage = "idle" ∨
    (nextQuestion p s env).state.stage = "report" := by
  by_cases h : s.answers.getD s.currentQ "" = ""
  · left; rw [nq_empty_eq p s env h]
  · cases hr : s.stage1Result with
    | none =>
        left
        simp only [List.getD_eq_getElem?_getD] at h
        simp [nextQuestion, h, hr]
    | some r =>
        by_cases hlt : s.currentQ < (r.questions.getD []).length - 1
        · left; rw [nq_advance_eq p s env r h hr hlt]
        · rw [nq_submit_eq p s env r h hr hlt]
          right; exact hsa_stage_cases p (some r) s.answers s env

/-- Any prefix of the empty trace has at most one request in flight. -/
theorem inflight_nil (n : Nat) : inflightCount (([] : List NetEvent).take n) ≤ 1 := by
  simp [inflightCount]

/-- Prepending one awaited call to a trace whose prefixes stay within one
in-flight request keeps every prefix within one in-flight request. -/
theorem inflight_call_cons (r : Request) (tail : List NetEvent)
    (h : ∀ n, inflightCount (tail.take n) ≤ 1) (n : Nat) :
    inflightCount ((callEvents r ++ tail).take n) ≤ 1 := by
  rcases n with _ | _ | m
  · simp [inflightCount]
  · simp [callEvents, inflightCount]
  · have h2 := h m
    simp only [callEvents, List.cons_append, List.nil_append, List.take_succ_cons]
    simpa [inflightCount] using h2

/-- A single awaited call keeps every prefix within one in-flight request. -/
theorem inflight_call_single (r : Request) (n : Nat) :
    inflightCount ((callEvents r).take n) ≤ 1 := by
  have := inflight_call_cons r [] inflight_nil n
  simpa using this

/-- Every prefix of a `handleSubmitAnswers` trace has at most one request in
flight: each of its calls is awaited before the next is issued. -/
theorem hsa_inflight (p : Props) (o : Option Stage1Data) (a : List String)
    (s : AIState) (env : SubmitEnv) (n : Nat) :
    inflightCount ((handleSubmitAnswers p o a s env).events.take n) ≤ 1 := by
  obtain ⟨st2, sv⟩ := env
  cases o with
  | none => rw [hsa_none_eq]; exact inflight_nil n
  | some r =>
      cases st2 with
      | err => rw [hsa_err_eq]; exact inflight_call_single _ n
      | ok resp =>
          cases sv with
          | err =>
              rw [hsa_saveerr_eq]
              exact inflight_call_cons _ _ (fun m => inflight_call_single _ m) n
          | ok u =>
              rw [hsa_ok_eq]
              exact inflight_call_cons _ _ (fun m => inflight_call_single _ m) n

/-- Every prefix of a `handleAnalyze` trace has at most one request in
flight. -/
theorem ha_inflight (p : Props) (s : AIState) (env : AnalyzeEnv) (n : Nat) :
    inflightCount ((handleAnalyze p s env).events.take n) ≤ 1 := by
  by_cases h : s.loading = true
  · rw [ha_loading_eq p s env h]; exact inflight_nil n
  · rw [Bool.not_eq_true] at h
    obtain ⟨f, st1, sub⟩ := env
    cases f with
    | err => rw [ha_fetcherr_eq p s h st1 sub]; exact inflight_call_single _ n
    | ok u =>
        cases st1 with
        | err =>
            rw [ha_stage1err_eq p s h u sub]
            exact inflight_call_cons _ _ (fun m => inflight_call_single _ m) n
        | ok d =>
            by_cases hq : d.questions.getD [] = []
            · rw [ha_zeroq_eq p s h d hq u sub]
              rw [List.append_assoc]
              exact inflight_call_cons _ _
                (fun m => inflight_call_cons _ _ (fun k => hsa_inflight p _ _ _ sub k) m) n
            · obtain ⟨q0, qrest, hq2⟩ : ∃ q0 qrest, d.questions = some (q0 :: qrest) := by
                cases hqs : d.questions with
                | none => exact absurd (by simp [hqs]) hq
                | some l =>
                    cases l with
                    | nil => exact absurd (by simp [hqs]) hq
                    | cons q0 qrest => exact ⟨q0, qrest, rfl⟩
              rw [ha_questions_eq p s h d q0 qrest hq2 u sub]
              exact inflight_call_cons _ _ (fun m => inflight_call_single _ m) n

/-- Every prefix of a `nextQuestion` trace has at most one request in
flight. -/
theorem nq_inflight (p : Props) (s : AIState) (env : SubmitEnv) (n : Nat) :
    inflightCount ((nextQuestion p s env).events.take n) ≤ 1 := by
  by_cases h : s.answers.getD s.currentQ "" = ""
  · rw [nq_empty_eq p s env h]; exact inflight_nil n
  · cases hr : s.stage1Result with
    | none =>
        simp only [nextQuestion, hr]
        rw [if_neg h]
        exact inflight_nil n
    | some r =>
        by_cases hlt : s.currentQ < (r.questions.getD []).length - 1
        · rw [nq_advance_eq p s env r h hr hlt]; exact inflight_nil n
        · rw [nq_submit_eq p s env r h hr hlt]; exact hsa_inflight p _ _ _ env n

/-- The only stage-2 request a `handleSubmitAnswers` run can issue targets the
stage-2 route and carries exactly the captured stage-1 fields, the captured
answers and the two props. -/
theorem hsa_stage2_mem (p : Props) (r : Stage1Data) (a : List String) (s : AIState)
    (env : SubmitEnv) (url : String) (b : Stage2Payload)
    (hmem : NetEvent.issue (Request.postStage2 url b)
      ∈ (handleSubmitAnswers p (some r) a s env).events) :
    url = "http://localhost:5001/api/" ++ p.conditionType ++ "_stage2" ∧
    b = { top3_classes := r.top3_classes, top3_probs := r.top3_probs,
          rag_summary := r.rag_summary, questions := r.questions,
          answers := a, patient_ref := p.patientRef, image_url := p.imageUrl } := by
  obtain ⟨st2, sv⟩ := env
  cases st2 with
  | err =>
      rw [hsa_err_eq] at hmem
      simp only [callEvents, List.mem_cons, List.not_mem_nil, or_false] at hmem
      rcases hmem with hmem | hmem
      · obtain ⟨h1, h2⟩ := Request.postStage2.inj (NetEvent.issue.inj hmem)
        exact ⟨h1, h2⟩
      · exact absurd hmem (by simp)
  | ok resp =>
      cases sv with
      | err =>
          rw [hsa_saveerr_eq] at hmem
          simp only [callEvents, List.cons_append, List.nil_append, List.mem_cons,
            List.not_mem_nil, or_false] at hmem
          rcases hmem with hmem | hmem | hmem | hmem
          · obtain ⟨h1, h2⟩ := Request.postStage2.inj (NetEvent.issue.inj hmem)
            exact ⟨h1, h2⟩
          · exact absurd hmem (by simp)
          · exact absurd hmem (by simp)
          · exact absurd hmem (by simp)
      | ok u =>
          rw [hsa_ok_eq] at hmem
          simp only [callEvents, List.cons_append, List.nil_append, List.mem_cons,
            List.not_mem_nil, or_false] at hmem
          rcases hmem with hmem | hmem | hmem | hmem
          · obtain ⟨h1, h2⟩ := Request.postStage2.inj (NetEvent.issue.inj hmem)
            exact ⟨h1, h2⟩
          · exact absurd hmem (by simp)
          · exact absurd hmem (by simp)
          · exact absurd hmem (by simp)

/-- Double-ended `dropWhile` leaves nothing exactly when every character is
whitespace. -/
theorem trim_empty_iff (cs : List Char) :
    ((cs.dropWhile isJsWs).reverse.dropWhile isJsWs).reverse = [] ↔
      cs.all isJsWs = true := by
  rw [List.reverse_eq_nil_iff, List.dropWhile_eq_nil_iff, List.all_eq_true]
  constructor
  · intro h x hx
    rcases List.mem_append.mp
        ((List.takeWhile_append_dropWhile (p := isJsWs) (l := cs)) ▸ hx) with h1 | h2
    · exact List.mem_takeWhile_imp h1
    · exact h x (List.mem_reverse.mpr h2)
  · intro h x hx
    exact h x ((List.dropWhile_sublist isJsWs).subset (List.mem_reverse.mp hx))

/-- The filter test of `toBulletList` (trimmed length positive) agrees with
the claim's phrasing (not whitespace-only). -/
theorem bullet_filter_eq (line : String) :
    (decide ((jsTrim line).length > 0)) = (!line.data.all isJsWs) := by
  by_cases h : line.data.all isJsWs = true
  · have hz : jsTrim line = ⟨[]⟩ :=
      congrArg String.mk ((trim_empty_iff line.data).mpr h)
    rw [hz, h]
    rfl
  · have hne : ((line.data.dropWhile isJsWs).reverse.dropWhile isJsWs).reverse ≠ [] :=
      fun hh => h ((trim_empty_iff line.data).mp hh)
    have hlen : 0 < (jsTrim line).length := by
      show 0 < ((line.data.dropWhile isJsWs).reverse.dropWhile isJsWs).reverse.length
      exact List.length_pos.mpr hne
    rw [Bool.not_eq_true] at h
    rw [h]
    simpa using hlen

/-- Invariant of a question round entered at index 0: the stored stage-1
result stays put, the answer array keeps the question count as its length,
the index stays inside the array (or at 0), and every answer strictly below
the current index is non-empty. -/
theorem qround_inv (p : Props) (r : Stage1Data) (s : AIState)
    (h : QRound p r s) :
    s.stage1Result = some r ∧
    s.answers.length = (r.questions.getD []).length ∧
    (s.currentQ = 0 ∨ s.currentQ < s.answers.length) ∧
    (∀ i, i < s.currentQ → s.answers.getD i "" ≠ "") := by
  induction h with
  | start s h1 h2 h3 h4 =>
      refine ⟨h2, by rw [h4]; simp, Or.inl h3, ?_⟩
      intro i hi
      rw [h3] at hi
      exact absurd hi (Nat.not_lt_zero i)
  | typeAnswer v h ih =>
      rename_i t
      obtain ⟨i1, i2, i3, i4⟩ := ih
      refine ⟨i1, ?_, ?_, ?_⟩
      · simpa [handleAnswerChange] using i2
      · simpa [handleAnswerChange] using i3
      · intro i hi
        simp only [handleAnswerChange] at hi ⊢
        have hne : t.currentQ ≠ i := Nat.ne_of_gt hi
        rw [List.getD_eq_getElem?_getD, List.getElem?_set_ne hne,
          ← List.getD_eq_getElem?_getD]
        exact i4 i hi
  | next env h hstage ih =>
      rename_i t
      obtain ⟨i1, i2, i3, i4⟩ := ih
      by_cases hcur : t.answers.getD t.currentQ "" = ""
      · rw [nq_empty_eq p t env hcur]
        exact ⟨i1, i2, i3, i4⟩
      · by_cases hlt : t.currentQ < (r.questions.getD []).length - 1
        · rw [nq_advance_eq p t env r hcur i1 hlt]
          refine ⟨i1, i2, ?_, ?_⟩
          · right
            show t.currentQ + 1 < t.answers.length
            omega
          · intro i hi
            have hi2 : i < t.currentQ + 1 := hi
            rcases Nat.lt_succ_iff_lt_or_eq.mp hi2 with hi3 | hi3
            · exact i4 i hi3
            · show t.answers.getD i "" ≠ ""
              rw [hi3]; exact hcur
        · rw [nq_submit_eq p t env r hcur i1 hlt] at hstage
          rcases hsa_stage_cases p (some r) t.answers t env with hh | hh <;>
            rw [hh] at hstage <;> exact absurd hstage (by decide)

/-- C1: on the first Analyze click, a successful stage-1 response whose
`questions` array is empty does NOT reach the `report` stage: the nullary
`handleSubmitAnswers` ignores the `([], res.data)` arguments, reads the null
render-time `stage1Result`, throws while building the payload, raises the
generate-error alert and resets the stage to `idle`; no stage-2 request is
ever issued and no final report is stored. -/
theorem c1_zero_questions_resets_to_idle :
    handleAnalyze pW initState { fetchImage := .ok (), stage1 := .ok d0, submit := subOK } =
      { state := { stage := "idle", loading := false, stage1Result := some d0,
                   answers := [], currentQ := 0, finalReport := none },
        alerts := ["Error generating or saving report."],
        events := [.issue (.fetchImage "http://img/1.jpg"),
                   .finish (.fetchImage "http://img/1.jpg"),
                   .issue (.postStage1 "http://localhost:5001/api/wound_stage1"),
                   .finish (.postStage1 "http://localhost:5001/api/wound_stage1")],
        stages := ["analyzing", "generating", "idle"] } := by
  rfl

/-- C2: every failure of the analyze, generate or save operations — a network
error, or the exception thrown while processing the response when the
captured stage-1 result is null — raises exactly one blocking alert and
commits the `idle` stage; runs without failure raise no alert, so no other
stage is ever the result of a failed operation. -/
theorem c2_failure_alert_idle :
    (∀ (p : Props) (o : Option Stage1Data) (a : List String) (s : AIState)
        (env : SubmitEnv),
      (o = none ∨ env.stage2 = .err ∨ env.save = .err) →
        (handleSubmitAnswers p o a s env).alerts = ["Error generating or saving report."] ∧
        (handleSubmitAnswers p o a s env).state.stage = "idle")
  ∧ (∀ (p : Props) (r : Stage1Data) (a : List String) (s : AIState)
        (env : SubmitEnv) (resp : Stage2Response),
      env.stage2 = .ok resp → env.save ≠ .err →
        (handleSubmitAnswers p (some r) a s env).alerts = [] ∧
        (handleSubmitAnswers p (some r) a s env).state.stage = "report")
  ∧ (∀ (p : Props) (s : AIState) (env : AnalyzeEnv),
      s.loading = false → (env.fetchImage = .err ∨ env.stage1 = .err) →
        (handleAnalyze p s env).alerts = ["Error analyzing image. Check AI backend logs."] ∧
        (handleAnalyze p s env).state.stage = "idle")
  ∧ (∀ (p : Props) (s : AIState) (env : AnalyzeEnv) (d : Stage1Data),
      s.loading = false → env.fetchImage ≠ .err → env.stage1 = .ok d →
      d.questions.getD [] = [] →
      (s.stage1Result = none ∨ env.submit.stage2 = .err ∨ env.submit.save = .err) →
        (handleAnalyze p s env).alerts = ["Error generating or saving report."] ∧
        (handleAnalyze p s env).state.stage = "idle") := by
  refine ⟨?_, ?_, ?_, ?_⟩
  · intro p o a s env h
    obtain ⟨st2, sv⟩ := env
    cases o with
    | none => rw [hsa_none_eq]; exact ⟨rfl, rfl⟩
    | some r =>
        cases st2 with
        | err => rw [hsa_err_eq]; exact ⟨rfl, rfl⟩
        | ok resp =>
            cases sv with
            | err => rw [hsa_saveerr_eq]; exact ⟨rfl, rfl⟩
            | ok u =>
                rcases h with h | h | h
                · exact absurd h (by simp)
                · exact absurd h (by simp)
                · exact absurd h (by simp)
  · intro p r a s env resp h1 h2
    obtain ⟨st2, sv⟩ := env
    cases st2 with
    | err => exact absurd h1 (by simp)
    | ok resp2 =>
        cases h1
        cases sv with
        | err => exact absurd rfl h2
        | ok u => rw [hsa_ok_eq]; exact ⟨rfl, rfl⟩
  · intro p s env h1 h2
    obtain ⟨f, st1, sub⟩ := env
    cases f with
    | err => rw [ha_fetcherr_eq p s h1 st1 sub]; exact ⟨rfl, rfl⟩
    | ok u =>
        cases st1 with
        | err => rw [ha_stage1err_eq p s h1 u sub]; exact ⟨rfl, rfl⟩
        | ok d =>
            rcases h2 with h | h
            · exact absurd h (by simp)
            · exact absurd h (by simp)
  · intro p s env d h1 h2 h3 hq h5
    obtain ⟨f, st1, sub⟩ := env
    cases f with
    | err => exact absurd rfl h2
    | ok u =>
        cases st1 with
        | err => exact absurd h3 (by simp)
        | ok d2 =>
            have hd : d2 = d := by
              have := h3
              simp only [AnalyzeEnv.stage1] at this
              exact Net.ok.inj this
            subst hd
            rw [ha_zeroq_eq p s h1 d2 hq u sub]
            obtain ⟨st2, sv⟩ := sub
            cases ho : s.stage1Result with
            | none => rw [hsa_none_eq]; exact ⟨rfl, rfl⟩
            | some r =>
                cases st2 with
                | err => rw [hsa_err_eq]; exact ⟨rfl, rfl⟩
                | ok resp =>
                    cases sv with
                    | err => rw [hsa_saveerr_eq]; exact ⟨rfl, rfl⟩
                    | ok u2 =>
                        rcases h5 with h | h | h
                        · rw [ho] at h; cases h
                        · exact absurd h (by simp)
                        · exact absurd h (by simp)

/-- Witness for C2 at a concrete failing input: the null captured stage-1
result raises exactly the generate alert and resets to `idle`. -/
theorem c2_failure_alert_idle_witness :
    (handleSubmitAnswers pW none [] initState subErr).alerts =
      ["Error generating or saving report."] ∧
    (handleSubmitAnswers pW none [] initState subErr).state.stage = "idle" :=
  c2_failure_alert_idle.1 pW none [] initState subErr (Or.inl rfl)

/-- C4: every stage-2 request a submit run can issue targets
`/api/{conditionType}_stage2` and carries exactly the captured stage-1 fields
unchanged, the collected answers, the patient ref and the image url; through
the question flow the captured values are the stored state values. -/
theorem c4_stage2_payload :
    (∀ (p : Props) (r : Stage1Data) (a : List String) (s : AIState)
        (env : SubmitEnv) (url : String) (b : Stage2Payload),
      NetEvent.issue (Request.postStage2 url b)
          ∈ (handleSubmitAnswers p (some r) a s env).events →
        url = "http://localhost:5001/api/" ++ p.conditionType ++ "_stage2" ∧
        b = { top3_classes := r.top3_classes, top3_probs := r.top3_probs,
              rag_summary := r.rag_summary, questions := r.questions,
              answers := a, patient_ref := p.patientRef, image_url := p.imageUrl })
  ∧ (∀ (p : Props) (s : AIState) (env : SubmitEnv) (url : String) (b : Stage2Payload),
      NetEvent.issue (Request.postStage2 url b) ∈ (nextQuestion p s env).events →
        ∃ r, s.stage1Result = some r ∧
          url = "http://localhost:5001/api/" ++ p.conditionType ++ "_stage2" ∧
          b = { top3_classes := r.top3_classes, top3_probs := r.top3_probs,
                rag_summary := r.rag_summary, questions := r.questions,
                answers := s.answers, patient_ref := p.patientRef,
                image_url := p.imageUrl }) := by
  constructor
  · intro p r a s env url b hmem
    exact hsa_stage2_mem p r a s env url b hmem
  · intro p s env url b hmem
    by_cases hcur : s.answers.getD s.currentQ "" = ""
    · rw [nq_empty_eq p s env hcur] at hmem
      exact absurd hmem (by simp)
    · cases hr : s.stage1Result with
      | none =>
          simp only [nextQuestion, hr] at hmem
          rw [if_neg hcur] at hmem
          exact absurd hmem (by simp)
      | some r =>
          by_cases hlt : s.currentQ < (r.questions.getD []).length - 1
          · rw [nq_advance_eq p s env r hcur hr hlt] at hmem
            exact absurd hmem (by simp)
          · rw [nq_submit_eq p s env r hcur hr hlt] at hmem
            obtain ⟨h1, h2⟩ := hsa_stage2_mem p r s.answers s env url b hmem
            exact ⟨r, rfl, h1, h2⟩

/-- Witness for C4 at a concrete submission. -/
theorem c4_stage2_payload_witness :
    "http://localhost:5001/api/wound_stage2" =
        "http://localhost:5001/api/" ++ pW.conditionType ++ "_stage2" ∧
    ({ top3_classes := ["Burn"], top3_probs := [(1 : Rat)/2], rag_summary := "rag1",
       questions := some ["q0", "q1", "q2"], answers := ["x", "y", "z"],
       patient_ref := "P1", image_url := "http://img/1.jpg" } : Stage2Payload) =
      { top3_classes := dQ3.top3_classes, top3_probs := dQ3.top3_probs,
        rag_summary := dQ3.rag_summary, questions := dQ3.questions,
        answers := ["x", "y", "z"], patient_ref := pW.patientRef,
        image_url := pW.imageUrl } :=
  c4_stage2_payload.1 pW dQ3 ["x", "y", "z"] initState subErr
    "http://localhost:5001/api/wound_stage2"
    { top3_classes := ["Burn"], top3_probs := [(1 : Rat)/2], rag_summary := "rag1",
      questions := some ["q0", "q1", "q2"], answers := ["x", "y", "z"],
      patient_ref := "P1", image_url := "http://img/1.jpg" }
    (by unfold subErr; rw [hsa_err_eq]; exact List.mem_cons_self _ _)

/-- C5: after every successful stage-2 response the run issues exactly one
save request, to `/patients/ai/save-woundcare` under the key `wound_result`
when the condition type is `wound` and to `/patients/ai/save-skincare` under
`skin_result` otherwise, persisting the top predictions, the raw final
report, the RAG summary and the patient answers. -/
theorem c5_save_call :
    ∀ (p : Props) (r : Stage1Data) (a : List String) (s : AIState)
      (env : SubmitEnv) (resp : Stage2Response), env.stage2 = .ok resp →
      savedPairs (handleSubmitAnswers p (some r) a s env).events =
        [((if p.conditionType = "wound" then "/patients/ai/save-woundcare"
           else "/patients/ai/save-skincare"),
          { patient_ref := p.patientRef,
            dataKey := if p.conditionType = "wound" then "wound_result"
                       else "skin_result",
            result := { topPredictions := r.top3_classes.mapIdx fun i cls =>
                          { name := cls,
                            confidence := toFixed2 (r.top3_probs.getD i 0 * 100) },
                        aiFinalReport := resp.final_report,
                        ragSummary := r.rag_summary,
                        patientAnswers := a } })] := by
  intro p r a s env resp h
  obtain ⟨st2, sv⟩ := env
  cases st2 with
  | err => exact absurd h (by simp)
  | ok resp2 =>
      cases h
      cases sv with
      | err =>
          rw [hsa_saveerr_eq]
          simp [savedPairs, callEvents, saveUrl, dataKey, aiResultOf, topPredictionsOf]
      | ok u =>
          rw [hsa_ok_eq]
          simp [savedPairs, callEvents, saveUrl, dataKey, aiResultOf, topPredictionsOf]

/-- Witness for C5 at a concrete successful run. -/
theorem c5_save_call_witness :
    savedPairs (handleSubmitAnswers pW (some dQ3) ["x", "y", "z"] initState subOK).events =
      [((if pW.conditionType = "wound" then "/patients/ai/save-woundcare"
         else "/patients/ai/save-skincare"),
        { patient_ref := pW.patientRef,
          dataKey := if pW.conditionType = "wound" then "wound_result"
                     else "skin_result",
          result := { topPredictions := dQ3.top3_classes.mapIdx fun i cls =>
                        { name := cls,
                          confidence := toFixed2 (dQ3.top3_probs.getD i 0 * 100) },
                      aiFinalReport := some "REPORT",
                      ragSummary := dQ3.rag_summary,
                      patientAnswers := ["x", "y", "z"] } })] :=
  c5_save_call pW dQ3 ["x", "y", "z"] initState subOK { final_report := some "REPORT" } rfl

/-- C6: at most one request is ever in flight — every prefix of every
handler's network trace holds at most one open request, because each call is
awaited before the next is issued — and clicking Analyze while a request is
in flight returns immediately without state changes, alerts or requests. -/
theorem c6_single_flight :
    (∀ (p : Props) (s : AIState) (env : AnalyzeEnv), s.loading = true →
        handleAnalyze p s env =
          { state := s, alerts := [], events := [], stages := [] })
  ∧ (∀ (p : Props) (s : AIState) (env : AnalyzeEnv) (n : Nat),
        inflightCount ((handleAnalyze p s env).events.take n) ≤ 1)
  ∧ (∀ (p : Props) (o : Option Stage1Data) (a : List String) (s : AIState)
        (env : SubmitEnv) (n : Nat),
        inflightCount ((handleSubmitAnswers p o a s env).events.take n) ≤ 1)
  ∧ (∀ (p : Props) (s : AIState) (env : SubmitEnv) (n : Nat),
        inflightCount ((nextQuestion p s env).events.take n) ≤ 1) :=
  ⟨ha_loading_eq, ha_inflight, hsa_inflight, nq_inflight⟩

/-- Witness for C6: a loading component ignores the Analyze click. -/
theorem c6_single_flight_witness :
    handleAnalyze pW { initState with loading := true } envQ3 =
      { state := { initState with loading := true },
        alerts := [], events := [], stages := [] } :=
  c6_single_flight.1 pW { initState with loading := true } envQ3 rfl

/-- C3: the stage flag of every reachable state is one of the five values
`idle`, `analyzing`, `questions`, `generating`, `report`, and within every
user-driven handler run the successive `setStage` calls only ever move
strictly forward along that order (skips allowed, e.g. over `questions`) or
reset to `idle`; the last stage set is the committed one.  Typing an answer
never changes the stage. -/
theorem c3_stage_machine :
    ∀ p : Props,
      (∀ s, Reach p s →
        s.stage ∈ (["idle", "analyzing", "questions", "generating", "report"] : List String))
    ∧ (∀ (s : AIState) (env : AnalyzeEnv), s.stage = "idle" → s.loading = false →
        List.Chain okStep s.stage (handleAnalyze p s env).stages ∧
        (handleAnalyze p s env).state.stage = (handleAnalyze p s env).stages.getLastD s.stage)
    ∧ (∀ (s : AIState) (v : String), (handleAnswerChange s v).stage = s.stage)
    ∧ (∀ (s : AIState) (env : SubmitEnv), s.stage = "questions" →
        List.Chain okStep s.stage (nextQuestion p s env).stages ∧
        (nextQuestion p s env).state.stage = (nextQuestion p s env).stages.getLastD s.stage) := by
  intro p
  refine ⟨?_, ?_, ?_, ?_⟩
  · intro s hs
    induction hs with
    | init => decide
    | step hr hst ih =>
        rename_i src tgt
        cases hst with
        | analyze env g1 g2 =>
            rcases ha_stage_cases p src env with h | h
            · rw [h]; exact ih
            · simp only [List.mem_cons, List.not_mem_nil, or_false] at h ⊢
              tauto
        | typeAnswer v g1 g2 => exact ih
        | next env g1 g2 =>
            rcases nq_stage_cases p src env with h | h | h <;> rw [h]
            · exact ih
            · decide
            · decide
  · intro s env h1 h2
    obtain ⟨f, st1, sub⟩ := env
    rw [h1]
    cases f with
    | err =>
        rw [ha_fetcherr_eq p s h2 st1 sub]
        exact ⟨.cons (by decide) (.cons (by decide) .nil), rfl⟩
    | ok u =>
        cases st1 with
        | err =>
            rw [ha_stage1err_eq p s h2 u sub]
            exact ⟨.cons (by decide) (.cons (by decide) .nil), rfl⟩
        | ok d =>
            by_cases hq : d.questions.getD [] = []
            · rw [ha_zeroq_eq p s h2 d hq u sub]
              obtain ⟨st2, sv⟩ := sub
              cases ho : s.stage1Result with
              | none =>
                  rw [hsa_none_eq]
                  exact ⟨.cons (by decide) (.cons (by decide) (.cons (by decide) .nil)), rfl⟩
              | some r =>
                  cases st2 with
                  | err =>
                      rw [hsa_err_eq]
                      exact ⟨.cons (by decide) (.cons (by decide) (.cons (by decide) .nil)), rfl⟩
                  | ok resp =>
                      cases sv with
                      | err =>
                          rw [hsa_saveerr_eq]
                          exact ⟨.cons (by decide) (.cons (by decide)
                            (.cons (by decide) (.cons (by decide) .nil))), rfl⟩
                      | ok u2 =>
                          rw [hsa_ok_eq]
                          exact ⟨.cons (by decide) (.cons (by decide) (.cons (by decide) .nil)), rfl⟩
            · obtain ⟨q0, qrest, hq2⟩ : ∃ q0 qrest, d.questions = some (q0 :: qrest) := by
                cases hqs : d.questions with
                | none => exact absurd (by simp [hqs]) hq
                | some l =>
                    cases l with
                    | nil => exact absurd (by simp [hqs]) hq
                    | cons q0 qrest => exact ⟨q0, qrest, rfl⟩
              rw [ha_questions_eq p s h2 d q0 qrest hq2 u sub]
              exact ⟨.cons (by decide) (.cons (by decide) .nil), rfl⟩
  · intro s v; rfl
  · intro s env h1
    by_cases hcur : s.answers.getD s.currentQ "" = ""
    · rw [nq_empty_eq p s env hcur]
      exact ⟨List.Chain.nil, rfl⟩
    · cases hr : s.stage1Result with
      | none =>
          simp only [nextQuestion, hr]
          rw [if_neg hcur]
          exact ⟨List.Chain.nil, rfl⟩
      | some r =>
          by_cases hlt : s.currentQ < (r.questions.getD []).length - 1
          · rw [nq_advance_eq p s env r hcur hr hlt]
            exact ⟨List.Chain.nil, rfl⟩
          · rw [nq_submit_eq p s env r hcur hr hlt, h1]
            obtain ⟨st2, sv⟩ := env
            cases st2 with
            | err =>
                rw [hsa_err_eq]
                exact ⟨.cons (by decide) (.cons (by decide) .nil), rfl⟩
            | ok resp =>
                cases sv with
                | err =>
                    rw [hsa_saveerr_eq]
                    exact ⟨.cons (by decide) (.cons (by decide) (.cons (by decide) .nil)), rfl⟩
                | ok u =>
                    rw [hsa_ok_eq]
                    exact ⟨.cons (by decide) (.cons (by decide) .nil), rfl⟩

/-- Witness for C3: the initial state carries one of the five stage values,
and a concrete Analyze run from `idle` makes a forward-or-reset stage chain. -/
theorem c3_stage_machine_witness :
    initState.stage ∈ (["idle", "analyzing", "questions", "generating", "report"] : List String) ∧
    List.Chain okStep initState.stage (handleAnalyze pW initState envQ3).stages :=
  ⟨(c3_stage_machine pW).1 initState Reach.init,
   ((c3_stage_machine pW).2.1 initState envQ3 rfl rfl).1⟩

/-- C7: for a condition type that is neither `wound` nor `skin`, AISummary
issues exactly `GET /cases/{ref}`, takes the last element of the returned
cases array as the AI data (showing it as the summary), and shows
`No AI summary available.` exactly when that array is empty or missing; for
`wound`/`skin` it uses the passed patient's `aiSummary` and issues no
request. -/
theorem c7_summary_source :
    ∀ (J : Type) (pat : PatientInfo J) (ref : String) (env : Net (CasesResponse J)),
      (pat.conditionType ≠ "wound" → pat.conditionType ≠ "skin" →
        (loadAI (some pat) (some ref) env).requests = ["/cases/" ++ ref] ∧
        (∀ resp, env = .ok resp →
          (loadAI (some pat) (some ref) env).aiData = (resp.cases.getD []).getLast? ∧
          (renderSummary (loadAI (some pat) (some ref) env) = SummaryView.noSummary ↔
            resp.cases.getD [] = []) ∧
          (∀ x, (resp.cases.getD []).getLast? = some x →
            renderSummary (loadAI (some pat) (some ref) env) = SummaryView.summary x)))
    ∧ ((pat.conditionType = "wound" ∨ pat.conditionType = "skin") →
        (loadAI (some pat) (some ref) env).requests = [] ∧
        (loadAI (some pat) (some ref) env).aiData = pat.aiSummary) := by
  intro J pat ref env
  constructor
  · intro h1 h2
    have hcond : ¬(pat.conditionType = "wound" ∨ pat.conditionType = "skin") := by
      rintro (h | h)
      exacts [h1 h, h2 h]
    cases env with
    | err =>
        refine ⟨by simp [loadAI, hcond], ?_⟩
        intro resp hresp
        cases hresp
    | ok resp0 =>
        refine ⟨by simp [loadAI, hcond], ?_⟩
        intro resp hresp
        have hr0 : resp0 = resp := Net.ok.inj hresp
        subst hr0
        refine ⟨by simp [loadAI, hcond], ?_, ?_⟩
        · simp only [loadAI]
          rw [if_neg hcond]
          cases hl : (resp0.cases.getD []).getLast? with
          | none =>
              rw [List.getLast?_eq_none_iff] at hl
              simp [renderSummary, hl]
          | some y =>
              have hne : resp0.cases.getD [] ≠ [] := by
                intro hnil
                rw [hnil] at hl
                cases hl
              simp [renderSummary, hl, hne]
        · intro x hx
          simp only [loadAI]
          rw [if_neg hcond]
          simp [renderSummary, hx]
  · intro h
    refine ⟨?_, ?_⟩ <;> simp [loadAI, h]

/-- Witness for C7: a concrete `other` patient with a two-case history issues
the case request and surfaces the last case. -/
theorem c7_summary_source_witness :
    (loadAI (some { conditionType := "other", aiSummary := none })
        (some "R1") (.ok { cases := some [5, 7] }) : SummaryState Nat).requests =
      ["/cases/" ++ "R1"] ∧
    (loadAI (some { conditionType := "other", aiSummary := none })
        (some "R1") (.ok { cases := some [5, 7] }) : SummaryState Nat).aiData =
      ([5, 7] : List Nat).getLast? :=
  ⟨((c7_summary_source Nat { conditionType := "other", aiSummary := none } "R1"
      (.ok { cases := some [5, 7] })).1 (by decide) (by decide)).1,
   (((c7_summary_source Nat { conditionType := "other", aiSummary := none } "R1"
      (.ok { cases := some [5, 7] })).1 (by decide) (by decide)).2
      { cases := some [5, 7] } rfl).1⟩

/-- C8: with a non-empty `ref` the WoundCareAI page issues exactly
`GET /patients/{ref}`; a response with at least one photo sets the displayed
image to the first photo's url and renders the analysis component, an empty
or missing photo array raises the no-image alert and renders the no-image
message instead; with an empty or missing `ref` no request is made. -/
theorem c8_wound_page :
    ∀ (ref : String) (env : HttpResult PatientResponse),
      (ref ≠ "" →
        (woundCareEffect (some ref) env).requests = ["/patients/" ++ ref] ∧
        (∀ resp ph rest, env = .ok resp → resp.photos = some (ph :: rest) →
          (woundCareEffect (some ref) env).imageUrl = some ph.url ∧
          renderWoundCare (woundCareEffect (some ref) env) = WoundView.analysis ph.url) ∧
        (∀ resp, env = .ok resp → resp.photos.getD [] = [] →
          (woundCareEffect (some ref) env).alerts = ["No image found for this patient."] ∧
          renderWoundCare (woundCareEffect (some ref) env) = WoundView.noImage))
    ∧ ((woundCareEffect (some "") env).requests = [] ∧
       (woundCareEffect none env).requests = []) := by
  intro ref env
  constructor
  · intro h
    refine ⟨?_, ?_, ?_⟩
    · cases env with
      | ok resp =>
          cases hp : resp.photos.getD [] with
          | nil => simp [woundCareEffect, h, hp]
          | cons ph rest => simp [woundCareEffect, h, hp]
      | err st =>
          by_cases h4 : st = some 401
          · simp [woundCareEffect, h, h4]
          · simp [woundCareEffect, h, h4]
    · intro resp ph rest henv hph
      subst henv
      have hp : resp.photos.getD [] = ph :: rest := by rw [hph]; rfl
      constructor
      · simp [woundCareEffect, h, hp]
      · simp [woundCareEffect, renderWoundCare, h, hp]
    · intro resp henv hp
      subst henv
      constructor
      · simp [woundCareEffect, h, hp]
      · simp [woundCareEffect, renderWoundCare, h, hp]
  · exact ⟨rfl, rfl⟩

/-- Witness for C8: a concrete patient with one photo yields the image and
the analysis view. -/
theorem c8_wound_page_witness :
    (woundCareEffect (some "P1") (.ok { photos := some [{ url := "u1" }] })).imageUrl =
      some "u1" ∧
    renderWoundCare (woundCareEffect (some "P1") (.ok { photos := some [{ url := "u1" }] })) =
      WoundView.analysis "u1" :=
  ((c8_wound_page "P1" (.ok { photos := some [{ url := "u1" }] })).1 (by decide)).2.1
    { photos := some [{ url := "u1" }] } { url := "u1" } [] rfl rfl

/-- C9 counterexample: `currentQ` is never reset between question rounds, so
a reachable second round entered with the stale index 2 submits a stage-2
payload whose answer entries at indices 0 and 1 are still the empty string,
even though every Next click validated its own current answer. -/
theorem c9_counterexample :
    Reach pW c9s13 ∧ c9s13.stage = "questions" ∧
    NetEvent.issue (Request.postStage2 "http://localhost:5001/api/wound_stage2"
      { top3_classes := ["Cut"], top3_probs := [(3 : Rat)/4], rag_summary := "rag2",
        questions := some ["p0", "p1", "p2", "p3", "p4"],
        answers := ["", "", "w", "u", "v"],
        patient_ref := "P1", image_url := "http://img/1.jpg" })
      ∈ (nextQuestion pW c9s13 subOK).events := by
  refine ⟨?_, rfl, ?_⟩
  · have r1 : Reach pW c9s1 := Reach.init.step (Step.analyze initState envQ3 rfl rfl)
    have r2 : Reach pW c9s2 := r1.step (Step.typeAnswer c9s1 "x" rfl rfl)
    have r3 : Reach pW c9s3 := r2.step (Step.next c9s2 subOK rfl rfl)
    have r4 : Reach pW c9s4 := r3.step (Step.typeAnswer c9s3 "y" rfl rfl)
    have r5 : Reach pW c9s5 := r4.step (Step.next c9s4 subOK rfl rfl)
    have r6 : Reach pW c9s6 := r5.step (Step.typeAnswer c9s5 "z" rfl rfl)
    have r7 : Reach pW c9s7 := r6.step (Step.next c9s6 subErr rfl rfl)
    have r8 : Reach pW c9s8 := r7.step (Step.analyze c9s7 envQ5 rfl rfl)
    have r9 : Reach pW c9s9 := r8.step (Step.typeAnswer c9s8 "w" rfl rfl)
    have r10 : Reach pW c9s10 := r9.step (Step.next c9s9 subOK rfl rfl)
    have r11 : Reach pW c9s11 := r10.step (Step.typeAnswer c9s10 "u" rfl rfl)
    have r12 : Reach pW c9s12 := r11.step (Step.next c9s11 subOK rfl rfl)
    exact r12.step (Step.typeAnswer c9s12 "v" rfl rfl)
  · exact List.mem_cons_self _ _

/-- C9 amended: `nextQuestion` never advances past an unanswered question (it
alerts and changes nothing), and in a question round entered at index 0 — as
every first round is — a stage-2 submission triggered from the question flow
carries only non-empty answers.  The restriction to rounds entered at index 0
is forced: `currentQ` is not reset between rounds. -/
theorem c9_amended :
    (∀ (p : Props) (s : AIState) (env : SubmitEnv),
       s.answers.getD s.currentQ "" = "" →
       nextQuestion p s env =
         { state := s, alerts := ["Please answer this question."],
           events := [], stages := [] })
  ∧ (∀ (p : Props) (r : Stage1Data) (s : AIState) (env : SubmitEnv)
       (url : String) (b : Stage2Payload), QRound p r s →
       NetEvent.issue (Request.postStage2 url b) ∈ (nextQuestion p s env).events →
       ∀ x ∈ b.answers, x ≠ "") := by
  constructor
  · exact fun p s env h => nq_empty_eq p s env h
  · intro p r s env url b hq hmem
    obtain ⟨i1, i2, i3, i4⟩ := qround_inv p r s hq
    by_cases hcur : s.answers.getD s.currentQ "" = ""
    · rw [nq_empty_eq p s env hcur] at hmem
      exact absurd hmem (by simp)
    · by_cases hlt : s.currentQ < (r.questions.getD []).length - 1
      · rw [nq_advance_eq p s env r hcur i1 hlt] at hmem
        exact absurd hmem (by simp)
      · rw [nq_submit_eq p s env r hcur i1 hlt] at hmem
        obtain ⟨hurl, hb⟩ := hsa_stage2_mem p r s.answers s env url b hmem
        subst hb
        intro x hx
        obtain ⟨n, hn⟩ := List.mem_iff_getElem?.mp (show x ∈ s.answers from hx)
        intro hxe
        subst hxe
        have hlen : n < s.answers.length := by
          by_contra hge
          rw [List.getElem?_eq_none (Nat.le_of_not_lt hge)] at hn
          cases hn
        have hgetd : s.answers.getD n "" = "" := by
          rw [List.getD_eq_getElem?_getD, hn]; rfl
        rcases Nat.lt_trichotomy n s.currentQ with hc | hc | hc
        · exact i4 n hc hgetd
        · rw [hc] at hgetd; exact hcur hgetd
        · omega

/-- Witness for C9 amended: the blank re-entered round rejects the empty
current answer unchanged, and a first-round submission carries only the three
non-empty answers. -/
theorem c9_amended_witness :
    (nextQuestion pW c9s8 subOK =
      { state := c9s8, alerts := ["Please answer this question."],
        events := [], stages := [] })
  ∧ (∀ x ∈ ({ top3_classes := ["Burn"], top3_probs := [(1 : Rat)/2],
              rag_summary := "rag1", questions := some ["q0", "q1", "q2"],
              answers := ["x", "y", "z"], patient_ref := "P1",
              image_url := "http://img/1.jpg" } : Stage2Payload).answers, x ≠ "") := by
  constructor
  · exact c9_amended.1 pW c9s8 subOK rfl
  · have hq1 : QRound pW dQ3 c9s1 := QRound.start c9s1 rfl rfl rfl rfl
    have hq2 : QRound pW dQ3 c9s2 := hq1.typeAnswer "x"
    have hq3 : QRound pW dQ3 c9s3 := hq2.next subOK rfl
    have hq4 : QRound pW dQ3 c9s4 := hq3.typeAnswer "y"
    have hq5 : QRound pW dQ3 c9s5 := hq4.next subOK rfl
    have hq6 : QRound pW dQ3 c9s6 := hq5.typeAnswer "z"
    exact c9_amended.2 pW dQ3 c9s6 subOK
      "http://localhost:5001/api/wound_stage2"
      { top3_classes := ["Burn"], top3_probs := [(1 : Rat)/2],
        rag_summary := "rag1", questions := some ["q0", "q1", "q2"],
        answers := ["x", "y", "z"], patient_ref := "P1",
        image_url := "http://img/1.jpg" }
      hq6 (List.mem_cons_self _ _)

/-- C10: `toBulletList` is a pure function agreeing everywhere with the
claim's description — split at newlines, strip at most one leading asterisk
with the whitespace after it, drop empty and whitespace-only lines — and maps
null, undefined and empty inputs to the empty list. -/
theorem c10_toBulletList_spec : ∀ t, toBulletList t = bulletListSpec t := by
  intro t
  cases t with
  | none => rfl
  | some s =>
      simp only [toBulletList, bulletListSpec]
      by_cases h : s = ""
      · rw [if_pos h, if_pos h]
      · rw [if_neg h, if_neg h]
        exact List.filter_congr fun x _ => bullet_filter_eq x
